import Mathlib

/-!
Shallow embedding of the upload-quota metering subsystem of the TransLearn
LMS repository: the PL/pgSQL functions `reset_monthly_upload_counts`,
`check_upload_limit` and `increment_upload_count` from
`src/database/schema.sql`, and the Express endpoint
`app.post('/resources/upload')` from `src/backend/src/index.js`.

Modelling conventions:
* SQL `NULL` of an integer column is `Option Nat` with `none`;
  NULL-propagating comparisons are made explicit (`sqlGe`, and the
  `CASE WHEN a < b THEN true ELSE false END` pattern where a NULL
  comparison falls to the ELSE arm).
* `TO_CHAR(CURRENT_DATE, 'YYYY-MM')` is passed in as an explicit
  `period : String` argument.
* Tables are association lists keyed as the schema's UNIQUE constraints
  dictate; `lookupRow` is the row fetch for the
  `UNIQUE(user_id, month_year)` key of `user_upload_counts`.
* The `users.id`/`resources.teacher_id` key is modelled as `Nat`.
-/

namespace TransLearn

/-- A row of `users` restricted to the columns the quota subsystem reads:
`id` and `subscription_plan` (nullable `VARCHAR(20) DEFAULT 'free'`). -/
structure User where
  id : Nat
  subscription_plan : Option String
deriving DecidableEq, Repr

/-- A row of `user_upload_counts`: `UNIQUE(user_id, month_year)`,
`upload_count INTEGER DEFAULT 0`, `upload_limit INTEGER DEFAULT 3`
(nullable: `increment_upload_count` can insert an explicit NULL). -/
structure UploadRow where
  user_id : Nat
  month_year : String
  upload_count : Nat
  upload_limit : Option Nat
deriving DecidableEq, Repr

/-- A row of `resources` restricted to the columns the upload endpoint
writes. -/
structure Resource where
  teacher_id : Nat
  title : String
  description : String
  subject : String
  grade : String
  country : String
  language : String
  tags : String
deriving DecidableEq, Repr

/-- A row of `subscription_plans` restricted to the columns the upload
endpoint's active-plan query reads; `expires_at` is a nullable timestamp,
modelled as `Option Nat` against an abstract clock. -/
structure SubPlan where
  user_id : Nat
  status : String
  expires_at : Option Nat
deriving DecidableEq, Repr

/-- The database state visible to the quota subsystem and the upload
endpoint. -/
structure DBState where
  users : List User
  uploadCounts : List UploadRow
  resources : List Resource
  subscriptionPlans : List SubPlan
deriving DecidableEq, Repr

/-- `SELECT ... FROM users u WHERE u.id = uid` (primary-key fetch). -/
def lookupUser (uid : Nat) : List User → Option User
  | [] => none
  | u :: us => if u.id = uid then some u else lookupUser uid us

/-- Fetch of the `user_upload_counts` row for the
`UNIQUE(user_id, month_year)` key. -/
def lookupRow (uid : Nat) (period : String) : List UploadRow → Option UploadRow
  | [] => none
  | r :: rs =>
      if r.user_id = uid ∧ r.month_year = period then some r
      else lookupRow uid period rs

/-- `ON CONFLICT (user_id, month_year) DO UPDATE SET
upload_count = user_upload_counts.upload_count + 1`: the unique
conflicting row gets its counter bumped by one (the `updated_at`
timestamp column is not modelled). -/
def bumpRow (uid : Nat) (period : String) : List UploadRow → List UploadRow
  | [] => []
  | r :: rs =>
      if r.user_id = uid ∧ r.month_year = period then
        { r with upload_count := r.upload_count + 1 } :: rs
      else r :: bumpRow uid period rs

/-- The `CASE WHEN u.subscription_plan = 'free' THEN 3 ... ELSE 3 END`
expression of `reset_monthly_upload_counts` (its two copies are
identical); a NULL plan fails every equality test and lands in the ELSE
arm. -/
def limitFor (plan : Option String) : Nat :=
  match plan with
  | some p =>
      if p = "free" then 3
      else if p = "basic" then 15
      else if p = "premium" then 50
      else if p = "enterprise" then 200
      else 3
  | none => 3

/-- The rows `reset_monthly_upload_counts` inserts: one per user with no
`(user_id, period)` row yet.  Faithful to the source, the SELECT list
feeds the *same* CASE expression into both `upload_count` and
`upload_limit`, so seeded rows start with `upload_count = upload_limit`. -/
def seedRows (period : String) (us : List User) (rows : List UploadRow) :
    List UploadRow :=
  (us.filter (fun u => (lookupRow u.id period rows).isNone)).map
    (fun u => ⟨u.id, period, limitFor u.subscription_plan,
               some (limitFor u.subscription_plan)⟩)

/-- `reset_monthly_upload_counts()`: `INSERT INTO user_upload_counts ...
SELECT ... FROM users u WHERE NOT EXISTS (row for (u.id, period))`. -/
def reset_monthly_upload_counts (period : String) (s : DBState) : DBState :=
  { s with uploadCounts := s.uploadCounts ++ seedRows period s.users s.uploadCounts }

/-- The record type returned by `check_upload_limit`. -/
structure QuotaDecision where
  can_upload : Bool
  current_uploads : Nat
  upload_limit : Option Nat
  remaining_uploads : Nat
  message : String
deriving DecidableEq, Repr

/-- The allowed-branch message text of `check_upload_limit`. -/
def allowMsg (n : Nat) : String :=
  "You can upload " ++ toString n ++ " more resources this month"

/-- The denied-branch message text of `check_upload_limit`. -/
def limitMsg : String :=
  "You have reached your monthly upload limit. Upgrade your plan for more uploads."

/-- `check_upload_limit(user_id_param)`: a single `RETURN QUERY SELECT`
over `users LEFT JOIN user_upload_counts`.  With no `users` row the
result set is empty (`none`); with no joined `user_upload_counts` row the
`uuc` columns are NULL, so `CASE WHEN NULL < NULL THEN true ELSE false
END` yields `can_upload = false`, `COALESCE(upload_count, 0) = 0` and
`GREATEST(NULL - 0, 0) = 0` (GREATEST ignores NULL arguments). -/
def check_upload_limit (uid : Nat) (period : String) (s : DBState) :
    Option QuotaDecision :=
  match lookupUser uid s.users with
  | none => none
  | some _ =>
    let row := lookupRow uid period s.uploadCounts
    let cnt : Option Nat := row.map (fun r => r.upload_count)
    let lim : Option Nat := row.bind (fun r => r.upload_limit)
    some
      { can_upload :=
          match cnt, lim with
          | some c, some l => decide (c < l)
          | _, _ => false
        current_uploads := cnt.getD 0
        upload_limit := lim
        remaining_uploads :=
          match lim with
          | some l => l - cnt.getD 0
          | none => 0
        message :=
          match cnt, lim with
          | some c, some l => if c < l then allowMsg (l - c) else limitMsg
          | _, _ => limitMsg }

/-- The PL/pgSQL SELECT INTO of `increment_upload_count`, i.e. its read
phase: `(COALESCE(uuc.upload_count, 0), uuc.upload_limit)` for the
user's current-period row (NULL limit when the row is absent or its
`upload_limit` column is NULL).  Defined only after the `users` row was
found; `increment_upload_count` handles the user-not-found case. -/
def readCounts (uid : Nat) (period : String) (s : DBState) : Nat × Option Nat :=
  match lookupRow uid period s.uploadCounts with
  | some r => (r.upload_count, r.upload_limit)
  | none => (0, none)

/-- `IF current_count >= upload_limit THEN ...`: a comparison against a
NULL limit is NULL, and `IF NULL` does not take the branch. -/
def sqlGe (a : Nat) : Option Nat → Bool
  | some b => decide (b ≤ a)
  | none => false

/-- The `INSERT ... VALUES (uid, period, 1, lim) ON CONFLICT
(user_id, month_year) DO UPDATE SET upload_count = ... + 1` statement:
the conflict is resolved against the rows present *at write time*. -/
def upsertRow (uid : Nat) (period : String) (lim : Option Nat)
    (rows : List UploadRow) : List UploadRow :=
  match lookupRow uid period rows with
  | some _ => bumpRow uid period rows
  | none => rows ++ [⟨uid, period, 1, lim⟩]

/-- The write phase of `increment_upload_count`: the limit test on the
values read earlier, then the upsert against the current state.  Kept
separate from the read phase because the source performs them as two
distinct SQL statements with no row lock in between, so under concurrent
callers the write phase may run against a state other than the one the
read phase saw. -/
def incrementPhase2 (uid : Nat) (period : String) (cc : Nat)
    (lim : Option Nat) (s : DBState) : Bool × DBState :=
  if sqlGe cc lim then (false, s)
  else (true, { s with uploadCounts := upsertRow uid period lim s.uploadCounts })

/-- `increment_upload_count(user_id_param)`, executed serially: read
phase then write phase on the same state.  When the `users` row does not
exist the SELECT INTO leaves both variables NULL, the `IF` is not taken,
and the INSERT violates the `user_id REFERENCES users(id)` foreign key,
so the call errors (`none`). -/
def increment_upload_count (uid : Nat) (period : String) (s : DBState) :
    Option (Bool × DBState) :=
  match lookupUser uid s.users with
  | none => none
  | some _ =>
      let rv := readCounts uid period s
      some (incrementPhase2 uid period rv.1 rv.2 s)

/-- `check_upload_limit` as a call against the database: its body is a
single SELECT (`RETURN QUERY SELECT ...` with no INSERT/UPDATE/DELETE),
so the database state after the call is the state before it. -/
def check_upload_limit_call (uid : Nat) (period : String) (s : DBState) :
    Option QuotaDecision × DBState :=
  (check_upload_limit uid period s, s)

/-- `n` successive `check_upload_limit` calls, each running against the
state the previous call left behind. -/
def repeatCheck (uid : Nat) (period : String) : Nat → DBState → DBState
  | 0, s => s
  | n + 1, s => repeatCheck uid period n (check_upload_limit_call uid period s).2

/-- An `UPDATE users SET subscription_plan = plan WHERE id = uid`
(the plan-change action implied by the schema's `subscription_plan`
column and its migration script); touches no other table. -/
def update_user_plan (uid : Nat) (plan : Option String) (s : DBState) : DBState :=
  { s with
      users := s.users.map (fun u =>
        if u.id = uid then { u with subscription_plan := plan } else u) }

/-- The form fields of a `POST /resources/upload` request, as destructured
from `req.body`: `teacher_id, title, description = '', subject, grade,
country = 'Kenya', language = 'en', tags = '\x7b\x7d'`.  A missing field
is `none`; `teacher_id` is modelled post-cast as the referenced `users`
key (`none` covering the JS-falsy missing/empty cases). -/
structure UploadReq where
  teacher_id : Option Nat
  title : Option String
  description : Option String
  subject : Option String
  grade : Option String
  country : Option String
  language : Option String
  tags : Option String
deriving DecidableEq, Repr

/-- JS falsiness of a form-field string: `undefined` and `''` are falsy
(`!title` in the endpoint's required-field check). -/
def jsStrFalsy : Option String → Bool
  | none => true
  | some s => s == ""

/-- The endpoint's first query:
`select count(*)::int as c from resources where teacher_id = $1` —
a lifetime count, with no month filter. -/
def lifetimeCount (tid : Nat) (rs : List Resource) : Nat :=
  (rs.filter (fun r => r.teacher_id == tid)).length

/-- The endpoint's second query: `select 1 from subscription_plans where
user_id = $1 and status = 'active' and (expires_at is null or
expires_at > now()) limit 1` — `true` iff a matching row exists. -/
def hasActivePlan (now : Nat) (tid : Nat) (plans : List SubPlan) : Bool :=
  plans.any (fun p =>
    p.user_id == tid && p.status == "active" &&
      (match p.expires_at with
       | none => true
       | some t => decide (now < t)))

/-- The three non-error responses of the upload endpoint:
422 (missing required field), 402 (`Upload limit reached. Please upgrade
your plan.`), and 201 with the inserted row. -/
inductive UploadResp where
  | unprocessable
  | paymentRequired
  | created (r : Resource)
deriving DecidableEq, Repr

/-- The `resources` row the endpoint inserts, with the destructuring
defaults applied (`description = ''`, `country = 'Kenya'`,
`language = 'en'`, `tags = '\x7b\x7d'`). -/
def mkResource (tid : Nat) (req : UploadReq) : Resource :=
  ⟨tid, req.title.getD "", req.description.getD "", req.subject.getD "",
   req.grade.getD "", req.country.getD "Kenya", req.language.getD "en",
   req.tags.getD "\x7b\x7d"⟩

/-- `app.post('/resources/upload')`: reject 422 when a required field is
missing/empty; reject 402 when the teacher already owns at least 5
resources and has no active subscription plan; otherwise insert the
resource and return 201.  The handler issues no query against
`user_upload_counts` and calls none of the quota SQL functions. -/
def resources_upload (now : Nat) (req : UploadReq) (s : DBState) :
    UploadResp × DBState :=
  match req.teacher_id with
  | none => (.unprocessable, s)
  | some tid =>
      if jsStrFalsy req.title || jsStrFalsy req.subject || jsStrFalsy req.grade then
        (.unprocessable, s)
      else if 5 ≤ lifetimeCount tid s.resources ∧
              hasActivePlan now tid s.subscriptionPlans = false then
        (.paymentRequired, s)
      else
        (.created (mkResource tid req),
         { s with resources := s.resources ++ [mkResource tid req] })

/-- Serial execution of `n` successive `increment_upload_count` calls,
collecting the returned booleans; an SQL error aborts the run. -/
def runInc (uid : Nat) (period : String) : Nat → DBState → (List Bool × DBState)
  | 0, s => ([], s)
  | n + 1, s =>
      match increment_upload_count uid period s with
      | none => ([], s)
      | some (b, s1) =>
          let p := runInc uid period n s1
          (b :: p.1, p.2)

/-- A brand-new free-plan user in a month with no ledger row yet. -/
def freshFreeState : DBState := ⟨[⟨1, some "free"⟩], [], [], []⟩

/-- A free-plan user whose current-period row has one quota unit left
(`upload_count = 2`, `upload_limit = 3`). -/
def oneLeftState : DBState :=
  ⟨[⟨1, some "free"⟩], [⟨1, "2024-05", 2, some 3⟩], [], []⟩

/-- A free-plan user whose current-period row is exhausted
(`upload_count = 3 = upload_limit`), owning no resources yet. -/
def exhaustedState : DBState :=
  ⟨[⟨1, some "free"⟩], [⟨1, "2024-05", 3, some 3⟩], [], []⟩

/-- A well-formed upload request for teacher 1. -/
def reqEx : UploadReq :=
  ⟨some 1, some "Fractions 101", none, some "math", some "7", none, none, none⟩

/-- Teacher 1 with five lifetime resources and no subscription row. -/
def fiveResState : DBState :=
  ⟨[⟨1, some "free"⟩], [], List.replicate 5 (mkResource 1 reqEx), []⟩

theorem lookupRow_keys {uid : Nat} {p : String} {L : List UploadRow} {r : UploadRow}
    (h : lookupRow uid p L = some r) : r.user_id = uid ∧ r.month_year = p := by
  induction L with
  | nil => simp [lookupRow] at h
  | cons a t ih =>
      by_cases hc : a.user_id = uid ∧ a.month_year = p
      · simp [lookupRow, hc] at h
        exact h ▸ hc
      · simp only [lookupRow, if_neg hc] at h
        exact ih h

theorem lookupRow_append_some {uid : Nat} {p : String} {l1 l2 : List UploadRow}
    {r : UploadRow} (h : lookupRow uid p l1 = some r) :
    lookupRow uid p (l1 ++ l2) = some r := by
  induction l1 with
  | nil => simp [lookupRow] at h
  | cons a t ih =>
      by_cases hc : a.user_id = uid ∧ a.month_year = p
      · simp only [lookupRow, if_pos hc] at h
        simp [lookupRow, hc, h]
      · simp only [lookupRow, if_neg hc] at h
        simp [lookupRow, hc, ih h]

theorem lookupRow_append_none {uid : Nat} {p : String} {l1 l2 : List UploadRow}
    (h : lookupRow uid p l1 = none) :
    lookupRow uid p (l1 ++ l2) = lookupRow uid p l2 := by
  induction l1 with
  | nil => simp [lookupRow]
  | cons a t ih =>
      by_cases hc : a.user_id = uid ∧ a.month_year = p
      · simp [lookupRow, hc] at h
      · simp only [lookupRow, if_neg hc] at h
        simp [lookupRow, hc, ih h]

theorem lookupRow_bump_self (uid : Nat) (p : String) (L : List UploadRow) :
    lookupRow uid p (bumpRow uid p L) =
      (lookupRow uid p L).map (fun r => { r with upload_count := r.upload_count + 1 }) := by
  induction L with
  | nil => simp [lookupRow, bumpRow]
  | cons a t ih =>
      by_cases hc : a.user_id = uid ∧ a.month_year = p
      · simp [lookupRow, bumpRow, hc]
      · simp [lookupRow, bumpRow, hc, ih]

theorem lookupRow_bump_other {uid uid₂ : Nat} {p p₂ : String}
    (h : ¬(uid₂ = uid ∧ p₂ = p)) (L : List UploadRow) :
    lookupRow uid₂ p₂ (bumpRow uid p L) = lookupRow uid₂ p₂ L := by
  have h' : ¬(uid = uid₂ ∧ p = p₂) := fun hx => h ⟨hx.1.symm, hx.2.symm⟩
  induction L with
  | nil => simp [bumpRow]
  | cons a t ih =>
      by_cases hc : a.user_id = uid ∧ a.month_year = p
      · have hc₂ : ¬(a.user_id = uid₂ ∧ a.month_year = p₂) := by
          rintro ⟨h1, h2⟩
          exact h ⟨by rw [← h1, hc.1], by rw [← h2, hc.2]⟩
        simp [lookupRow, bumpRow, hc, hc₂, h, h']
      · by_cases hd : a.user_id = uid₂ ∧ a.month_year = p₂
        · simp [lookupRow, bumpRow, hc, hd, h, h']
        · simp [lookupRow, bumpRow, hc, hd, ih]

theorem lookupRow_isSome_of_mem {uid : Nat} {p : String} {L : List UploadRow}
    {r : UploadRow} (hm : r ∈ L) (h1 : r.user_id = uid) (h2 : r.month_year = p) :
    (lookupRow uid p L).isSome := by
  induction L with
  | nil => simp at hm
  | cons a t ih =>
      by_cases hc : a.user_id = uid ∧ a.month_year = p
      · simp [lookupRow, hc]
      · rcases List.mem_cons.mp hm with he | ht
        · exact absurd ⟨he ▸ h1, he ▸ h2⟩ hc
        · simp only [lookupRow, if_neg hc]
          exact ih ht

theorem lookupUser_mem {uid : Nat} {us : List User} {u : User}
    (h : lookupUser uid us = some u) : u ∈ us ∧ u.id = uid := by
  induction us with
  | nil => simp [lookupUser] at h
  | cons a t ih =>
      by_cases hc : a.id = uid
      · simp [lookupUser, hc] at h
        exact ⟨by simp [← h], h ▸ hc⟩
      · simp only [lookupUser, if_neg hc] at h
        exact ⟨List.mem_cons_of_mem _ (ih h).1, (ih h).2⟩

theorem lookupRow_seedRows_some {uid : Nat} {p : String} {us : List User}
    {rows : List UploadRow} {r : UploadRow}
    (h : lookupRow uid p (seedRows p us rows) = some r) :
    ∃ u, u ∈ us ∧ u.id = uid ∧
      r = ⟨u.id, p, limitFor u.subscription_plan, some (limitFor u.subscription_plan)⟩ := by
  induction us with
  | nil => simp [seedRows, lookupRow] at h
  | cons a t ih =>
      by_cases ha : (lookupRow a.id p rows).isNone
      · rw [show seedRows p (a :: t) rows =
              ⟨a.id, p, limitFor a.subscription_plan, some (limitFor a.subscription_plan)⟩ ::
                seedRows p t rows from by simp [seedRows, List.filter_cons, ha]] at h
        simp only [lookupRow] at h
        split at h
        · next hcond =>
            exact ⟨a, List.mem_cons_self a t, hcond.1, (Option.some.inj h).symm⟩
        · obtain ⟨u, hm, hu, hr⟩ := ih h
          exact ⟨u, List.mem_cons_of_mem _ hm, hu, hr⟩
      · rw [show seedRows p (a :: t) rows = seedRows p t rows from by
              simp [seedRows, List.filter_cons, ha]] at h
        obtain ⟨u, hm, hu, hr⟩ := ih h
        exact ⟨u, List.mem_cons_of_mem _ hm, hu, hr⟩

theorem seedRows_covers {uid : Nat} {p : String} {us : List User}
    {rows : List UploadRow} {u : User} (hm : u ∈ us) (hid : u.id = uid)
    (habs : (lookupRow uid p rows).isNone) :
    (lookupRow uid p (seedRows p us rows)).isSome := by
  refine @lookupRow_isSome_of_mem uid p (seedRows p us rows)
    ⟨u.id, p, limitFor u.subscription_plan, some (limitFor u.subscription_plan)⟩
    ?_ hid rfl
  refine List.mem_map.mpr ⟨u, List.mem_filter.mpr ⟨hm, ?_⟩, rfl⟩
  rw [hid]
  exact habs

theorem seedRows_after_seed {p : String} {us : List User} {rows : List UploadRow} :
    seedRows p us (rows ++ seedRows p us rows) = [] := by
  have hall : ∀ u ∈ us, ¬((lookupRow u.id p (rows ++ seedRows p us rows)).isNone = true) := by
    intro u hm
    cases hk : lookupRow u.id p rows with
    | some r =>
        rw [lookupRow_append_some hk]
        simp
    | none =>
        rw [lookupRow_append_none hk]
        have hs := @seedRows_covers u.id p us rows u hm rfl (by simp [hk])
        intro hcon
        rw [Option.isNone_iff_eq_none] at hcon
        rw [hcon] at hs
        simp at hs
  have hfil : us.filter
      (fun u => (lookupRow u.id p (rows ++ seedRows p us rows)).isNone) = [] :=
    List.filter_eq_nil_iff.mpr hall
  show (us.filter
      (fun u => (lookupRow u.id p (rows ++ seedRows p us rows)).isNone)).map
        (fun u => (⟨u.id, p, limitFor u.subscription_plan,
          some (limitFor u.subscription_plan)⟩ : UploadRow)) = []
  rw [hfil]
  rfl

theorem increment_cases (uid : Nat) (period : String) (s : DBState) :
    increment_upload_count uid period s = none ∨
    increment_upload_count uid period s = some (false, s) ∨
    ∃ lim, increment_upload_count uid period s =
      some (true, { s with uploadCounts := upsertRow uid period lim s.uploadCounts }) := by
  unfold increment_upload_count
  cases lookupUser uid s.users with
  | none => exact Or.inl rfl
  | some u =>
      right
      unfold incrementPhase2
      by_cases hge : sqlGe (readCounts uid period s).1 (readCounts uid period s).2 = true
      · left
        simp [hge]
      · right
        exact ⟨(readCounts uid period s).2, by simp [hge]⟩

theorem upsert_preserves {uid : Nat} {period : String} {lim : Option Nat}
    {rows : List UploadRow} {uid₂ : Nat} {p₂ : String} {r₂ : UploadRow}
    (h : lookupRow uid₂ p₂ rows = some r₂) :
    ∃ r₃, lookupRow uid₂ p₂ (upsertRow uid period lim rows) = some r₃ ∧
      r₃.upload_limit = r₂.upload_limit ∧ r₃.user_id = r₂.user_id ∧
      r₃.month_year = r₂.month_year := by
  unfold upsertRow
  cases hk : lookupRow uid period rows with
  | none => exact ⟨r₂, lookupRow_append_some h, rfl, rfl, rfl⟩
  | some r₀ =>
      by_cases hc : uid₂ = uid ∧ p₂ = period
      · obtain ⟨hc1, hc2⟩ := hc
        subst hc1
        subst hc2
        rw [lookupRow_bump_self, h]
        exact ⟨_, rfl, rfl, rfl, rfl⟩
      · rw [lookupRow_bump_other hc]
        exact ⟨r₂, h, rfl, rfl, rfl⟩

theorem reset_idempotent (p : String) (s : DBState) :
    reset_monthly_upload_counts p (reset_monthly_upload_counts p s) =
      reset_monthly_upload_counts p s := by
  unfold reset_monthly_upload_counts
  dsimp only
  rw [seedRows_after_seed, List.append_nil]

/-- C1: the no-overshoot invariant fails exactly in the case the claim
singles out.  When the first `increment_upload_count` of a period must
itself create the row, the SELECT over the LEFT JOIN reads a NULL
`upload_limit`, the `IF current_count >= upload_limit` test is never
taken, and the inserted row carries `upload_limit = NULL`; four
consecutive calls for a fresh free-plan user (plan limit 3) all return
true and leave `upload_count = 4` with a NULL `upload_limit`, so
`upload_count <= upload_limit` does not hold and the plan limit is
overshot. -/
theorem c1_lazy_row_overshoot :
    (runInc 1 "2024-05" 4 freshFreeState).1 = [true, true, true, true] ∧
    lookupRow 1 "2024-05" (runInc 1 "2024-05" 4 freshFreeState).2.uploadCounts =
      some ⟨1, "2024-05", 4, none⟩ ∧
    limitFor (some "free") = 3 := by
  decide

/-- C3: the claimed mutual exclusion fails on the code.  The limit check
and the increment are two separate SQL statements with no row lock in
between, so with one unit remaining (`upload_count = 2`,
`upload_limit = 3`) two calls that both run their read phase before
either write phase both pass the stale check and both return true,
leaving `upload_count = 4 > 3`.  The first conjunct records what each
concurrent call reads from the initial state; the second records that
the serial function is exactly read phase followed by write phase. -/
theorem c3_concurrent_double_grant :
    readCounts 1 "2024-05" oneLeftState = (2, some 3) ∧
    increment_upload_count 1 "2024-05" oneLeftState =
      some (incrementPhase2 1 "2024-05" 2 (some 3) oneLeftState) ∧
    (incrementPhase2 1 "2024-05" 2 (some 3) oneLeftState).1 = true ∧
    (incrementPhase2 1 "2024-05" 2 (some 3)
        (incrementPhase2 1 "2024-05" 2 (some 3) oneLeftState).2).1 = true ∧
    lookupRow 1 "2024-05"
        ((incrementPhase2 1 "2024-05" 2 (some 3)
            (incrementPhase2 1 "2024-05" 2 (some 3) oneLeftState).2).2).uploadCounts =
      some ⟨1, "2024-05", 4, some 3⟩ := by
  decide

/-- C4: the claimed ensure-period-row behaviour fails on the code.  For
a fresh free-plan user with no `(user, period)` row,
`check_upload_limit` returns `can_upload = false` and
`remaining_uploads = 0` (NULL comparisons fall to the ELSE arms), not
`true` and `3`; and the row created by the first
`increment_upload_count` carries `upload_limit = NULL`, not the
plan-derived snapshot 3. -/
theorem c4_missing_row_denied_and_null_snapshot :
    check_upload_limit 1 "2024-05" freshFreeState =
      some ⟨false, 0, none, 0, limitMsg⟩ ∧
    increment_upload_count 1 "2024-05" freshFreeState =
      some (true, ⟨[⟨1, some "free"⟩], [⟨1, "2024-05", 1, none⟩], [], []⟩) ∧
    limitFor (some "free") = 3 := by
  decide

/-- C2 counterexample: the upload endpoint persists a resource in a
state where `increment_upload_count` for the same user returns false
(monthly row exhausted at `upload_count = 3 = upload_limit`), and the
monthly ledger is left untouched — so a resource is stored without a
consumed quota unit and the endpoint's persistence decision is not tied
to `try_consume`. -/
theorem c2_endpoint_ignores_try_consume_cx :
    increment_upload_count 1 "2024-05" exhaustedState =
      some (false, exhaustedState) ∧
    (resources_upload 0 reqEx exhaustedState).1 = .created (mkResource 1 reqEx) ∧
    (resources_upload 0 reqEx exhaustedState).2.resources = [mkResource 1 reqEx] ∧
    (resources_upload 0 reqEx exhaustedState).2.uploadCounts =
      exhaustedState.uploadCounts := by
  decide

/-- C2 as amended: the upload endpoint's own denials insert no resource
and change no state (a 402 or 422 response leaves the database exactly
as it was), and the endpoint never consults or updates the monthly
`user_upload_counts` ledger — its gate is the lifetime-count/active-plan
check, not `increment_upload_count`. -/
theorem c2_endpoint_denial_frame (now : Nat) (req : UploadReq) (s : DBState) :
    (resources_upload now req s).2.uploadCounts = s.uploadCounts ∧
    ((resources_upload now req s).1 = .paymentRequired →
      (resources_upload now req s).2 = s) ∧
    ((resources_upload now req s).1 = .unprocessable →
      (resources_upload now req s).2 = s) := by
  unfold resources_upload
  cases req.teacher_id with
  | none => simp
  | some tid =>
      by_cases h1 : (jsStrFalsy req.title || jsStrFalsy req.subject ||
          jsStrFalsy req.grade) = true
      · simp [h1]
      · by_cases h2 : 5 ≤ lifetimeCount tid s.resources ∧
            hasActivePlan now tid s.subscriptionPlans = false
        · simp [h1, h2]
        · simp [h1, h2]

/-- C2 amended-claim witness: a denied upload (teacher with five
lifetime resources and no active plan) leaves the database unchanged. -/
theorem c2_endpoint_denial_frame_witness :
    (resources_upload 0 reqEx fiveResState).2 = fiveResState :=
  (c2_endpoint_denial_frame 0 reqEx fiveResState).2.1 (by decide)

/-- C6: the plan-to-limit CASE expression is a pure total map sending
free to 3, basic to 15, premium to 50, enterprise to 200, and every
other input — any unrecognized string, the empty string, or NULL — to
the free-tier default 3, so its result is always one of the four
positive catalogue values. -/
theorem c6_limit_for_catalog :
    limitFor (some "free") = 3 ∧ limitFor (some "basic") = 15 ∧
    limitFor (some "premium") = 50 ∧ limitFor (some "enterprise") = 200 ∧
    limitFor (some "bogus-plan") = 3 ∧ limitFor (some "") = 3 ∧
    limitFor none = 3 ∧
    (∀ plan, limitFor plan = 3 ∨ limitFor plan = 15 ∨
      limitFor plan = 50 ∨ limitFor plan = 200) ∧
    (∀ q, q ≠ "free" → q ≠ "basic" → q ≠ "premium" → q ≠ "enterprise" →
      limitFor (some q) = 3) := by
  refine ⟨by decide, by decide, by decide, by decide, by decide, by decide,
    rfl, ?_, ?_⟩
  · intro plan
    cases plan with
    | none => simp [limitFor]
    | some q =>
        simp only [limitFor]
        split_ifs <;> simp
  · intro q hq1 hq2 hq3 hq4
    simp [limitFor, hq1, hq2, hq3, hq4]

/-- C6 witness: an arbitrary unrecognized plan name falls back to the
free-tier limit. -/
theorem c6_limit_for_catalog_witness : limitFor (some "gold") = 3 :=
  c6_limit_for_catalog.2.2.2.2.2.2.2.2 "gold" (by decide) (by decide)
    (by decide) (by decide)

/-- C8: `check_upload_limit` is read-only — its body is a single SELECT,
so a call leaves the database state unchanged — and repeating it any
number of times without an intervening `increment_upload_count` changes
neither the state nor the returned decision (in particular
`remaining_uploads` is stable across repeated calls). -/
theorem c8_check_read_only_idempotent (uid : Nat) (period : String)
    (s : DBState) (n : Nat) :
    (check_upload_limit_call uid period s).2 = s ∧
    repeatCheck uid period n s = s ∧
    check_upload_limit uid period (repeatCheck uid period n s) =
      check_upload_limit uid period s := by
  have hrep : ∀ m, repeatCheck uid period m s = s := by
    intro m
    induction m with
    | zero => rfl
    | succ k ih => simpa [repeatCheck, check_upload_limit_call] using ih
  exact ⟨rfl, hrep n, by rw [hrep n]⟩

/-- C5: serial step semantics of `increment_upload_count` on an existing
period row with a non-NULL limit: if `upload_count >= upload_limit` the
call returns false and performs no mutation (the state is returned
unchanged); otherwise it returns true, increments that row's
`upload_count` by exactly one, leaves its `upload_limit` unchanged, and
touches no other table and no other ledger row. -/
theorem c5_try_consume_step (s : DBState) (uid : Nat) (period : String)
    (r : UploadRow) (l : Nat)
    (hu : (lookupUser uid s.users).isSome)
    (hr : lookupRow uid period s.uploadCounts = some r)
    (hl : r.upload_limit = some l) :
    (l ≤ r.upload_count → increment_upload_count uid period s = some (false, s)) ∧
    (r.upload_count < l → ∃ s₂,
      increment_upload_count uid period s = some (true, s₂) ∧
      lookupRow uid period s₂.uploadCounts =
        some { r with upload_count := r.upload_count + 1 } ∧
      s₂.users = s.users ∧ s₂.resources = s.resources ∧
      s₂.subscriptionPlans = s.subscriptionPlans ∧
      (∀ uid₂ p₂, ¬(uid₂ = uid ∧ p₂ = period) →
        lookupRow uid₂ p₂ s₂.uploadCounts = lookupRow uid₂ p₂ s.uploadCounts)) := by
  obtain ⟨u, hu'⟩ := Option.isSome_iff_exists.mp hu
  have hread : readCounts uid period s = (r.upload_count, r.upload_limit) := by
    simp [readCounts, hr]
  constructor
  · intro hge
    simp [increment_upload_count, hu', hread, incrementPhase2, sqlGe, hl, hge]
  · intro hlt
    refine ⟨{ s with uploadCounts := bumpRow uid period s.uploadCounts },
      ?_, ?_, rfl, rfl, rfl, ?_⟩
    · simp [increment_upload_count, hu', hread, incrementPhase2, sqlGe, hl,
        Nat.not_le.mpr hlt, upsertRow, hr]
    · rw [lookupRow_bump_self, hr]
      rfl
    · intro uid₂ p₂ hne
      exact lookupRow_bump_other hne _

/-- C5 witness: on an exhausted row (`upload_count = 3 = upload_limit`)
the call denies and mutates nothing. -/
theorem c5_try_consume_step_witness :
    increment_upload_count 1 "2024-05" exhaustedState =
      some (false, exhaustedState) :=
  (c5_try_consume_step exhaustedState 1 "2024-05" ⟨1, "2024-05", 3, some 3⟩ 3
    (by decide) (by decide) rfl).1 (by decide)

/-- C7: `reset_monthly_upload_counts` is creation-only and idempotent
within a period: every pre-existing ledger row survives a run unchanged
(in particular a row with `upload_count = 2` still reads 2 afterwards),
any current-period row present after a run is either a pre-existing row
returned verbatim or a fresh row for a user that had none, and running
the function twice in the same period equals running it once. -/
theorem c7_reset_creation_only (period : String) (s : DBState) :
    (∀ uid p₂ r, lookupRow uid p₂ s.uploadCounts = some r →
      lookupRow uid p₂ (reset_monthly_upload_counts period s).uploadCounts = some r) ∧
    (∀ uid r,
      lookupRow uid period (reset_monthly_upload_counts period s).uploadCounts = some r →
      lookupRow uid period s.uploadCounts = some r ∨
      (lookupRow uid period s.uploadCounts = none ∧
        ∃ u, u ∈ s.users ∧ u.id = uid ∧
          r = ⟨u.id, period, limitFor u.subscription_plan,
                some (limitFor u.subscription_plan)⟩)) ∧
    reset_monthly_upload_counts period (reset_monthly_upload_counts period s) =
      reset_monthly_upload_counts period s := by
  refine ⟨?_, ?_, reset_idempotent period s⟩
  · intro uid p₂ r hr
    exact lookupRow_append_some hr
  · intro uid r hr
    cases hk : lookupRow uid period s.uploadCounts with
    | some r₀ =>
        left
        rw [show reset_monthly_upload_counts period s =
            { s with uploadCounts := s.uploadCounts ++
                seedRows period s.users s.uploadCounts } from rfl] at hr
        rw [lookupRow_append_some hk] at hr
        exact hr
    | none =>
        right
        refine ⟨rfl, ?_⟩
        rw [show reset_monthly_upload_counts period s =
            { s with uploadCounts := s.uploadCounts ++
                seedRows period s.users s.uploadCounts } from rfl] at hr
        rw [lookupRow_append_none hk] at hr
        exact lookupRow_seedRows_some hr

/-- C7 witness: for a user who already consumed two units, the row still
reads 2 after a reset run, and a second run in the same period is a
no-op. -/
theorem c7_reset_creation_only_witness :
    lookupRow 1 "2024-05"
        (reset_monthly_upload_counts "2024-05" oneLeftState).uploadCounts =
      some ⟨1, "2024-05", 2, some 3⟩ ∧
    reset_monthly_upload_counts "2024-05"
        (reset_monthly_upload_counts "2024-05" oneLeftState) =
      reset_monthly_upload_counts "2024-05" oneLeftState :=
  ⟨(c7_reset_creation_only "2024-05" oneLeftState).1 1 "2024-05"
      ⟨1, "2024-05", 2, some 3⟩ (by decide),
   (c7_reset_creation_only "2024-05" oneLeftState).2.2⟩

/-- C9: the limit-snapshot frame property.  A `check_upload_limit` call
changes no state; an `increment_upload_count` call preserves the
`upload_limit` (and key) of every existing ledger row; a mid-month
change of `users.subscription_plan` touches no ledger row at all; and
after such a plan change, a period row freshly created by the reset job
for that user carries the new plan's limit — the new plan applies only
to rows created afterwards. -/
theorem c9_limit_snapshot_frame (s : DBState) (uid : Nat) (period : String) :
    (check_upload_limit_call uid period s).2 = s ∧
    (∀ b s₂, increment_upload_count uid period s = some (b, s₂) →
      ∀ uid₂ p₂ r₂, lookupRow uid₂ p₂ s.uploadCounts = some r₂ →
        ∃ r₃, lookupRow uid₂ p₂ s₂.uploadCounts = some r₃ ∧
          r₃.upload_limit = r₂.upload_limit ∧ r₃.user_id = r₂.user_id ∧
          r₃.month_year = r₂.month_year) ∧
    (∀ uid₂ plan, (update_user_plan uid₂ plan s).uploadCounts = s.uploadCounts) ∧
    (∀ p₂ plan u, u ∈ s.users → u.id = uid →
      lookupRow uid p₂ s.uploadCounts = none →
      ∃ r, lookupRow uid p₂
          (reset_monthly_upload_counts p₂ (update_user_plan uid plan s)).uploadCounts =
        some r ∧ r.upload_limit = some (limitFor plan)) := by
  refine ⟨rfl, ?_, fun _ _ => rfl, ?_⟩
  · intro b s₂ hinc uid₂ p₂ r₂ hr₂
    rcases increment_cases uid period s with hc | hc | ⟨lim, hc⟩
    · rw [hc] at hinc
      cases hinc
    · rw [hc] at hinc
      simp only [Option.some.injEq, Prod.mk.injEq] at hinc
      obtain ⟨hb, hs⟩ := hinc
      subst hs
      exact ⟨r₂, hr₂, rfl, rfl, rfl⟩
    · rw [hc] at hinc
      simp only [Option.some.injEq, Prod.mk.injEq] at hinc
      obtain ⟨hb, hs⟩ := hinc
      subst hs
      exact upsert_preserves hr₂
  · intro p₂ plan u hmem hid habs
    have hm₂ : ({ u with subscription_plan := plan } : User) ∈
        (update_user_plan uid plan s).users := by
      refine List.mem_map.mpr ⟨u, hmem, ?_⟩
      simp [hid]
    have habs₂ : (lookupRow uid p₂ (update_user_plan uid plan s).uploadCounts).isNone := by
      show (lookupRow uid p₂ s.uploadCounts).isNone
      simp [habs]
    have hsome := @seedRows_covers uid p₂ (update_user_plan uid plan s).users
      (update_user_plan uid plan s).uploadCounts { u with subscription_plan := plan }
      hm₂ hid habs₂
    obtain ⟨r, hr⟩ := Option.isSome_iff_exists.mp hsome
    have hred : lookupRow uid p₂
        (reset_monthly_upload_counts p₂ (update_user_plan uid plan s)).uploadCounts =
        lookupRow uid p₂ (seedRows p₂ (update_user_plan uid plan s).users
          (update_user_plan uid plan s).uploadCounts) :=
      lookupRow_append_none (Option.isNone_iff_eq_none.mp habs₂)
    refine ⟨r, by rw [hred]; exact hr, ?_⟩
    obtain ⟨u₃, hmem₃, hid₃, hr₃⟩ := lookupRow_seedRows_some hr
    obtain ⟨u₀, hmem₀, hfu⟩ := List.mem_map.mp hmem₃
    by_cases h0 : u₀.id = uid
    · have hplan : u₃.subscription_plan = plan := by
        rw [← hfu]
        simp [h0]
      simp [hr₃, hplan]
    · have hu₃ : u₃ = u₀ := by
        rw [← hfu]
        simp [h0]
      rw [hu₃] at hid₃
      exact absurd hid₃ h0

/-- C9 witness: consuming a unit on an existing row keeps that row's
`upload_limit` at 3. -/
theorem c9_limit_snapshot_frame_witness :
    ∃ r₃, lookupRow 1 "2024-05"
        (⟨[⟨1, some "free"⟩], [⟨1, "2024-05", 3, some 3⟩], [], []⟩ :
          DBState).uploadCounts = some r₃ ∧
      r₃.upload_limit = some 3 ∧ r₃.user_id = 1 ∧ r₃.month_year = "2024-05" :=
  (c9_limit_snapshot_frame oneLeftState 1 "2024-05").2.1 true
    ⟨[⟨1, some "free"⟩], [⟨1, "2024-05", 3, some 3⟩], [], []⟩ (by decide)
    1 "2024-05" ⟨1, "2024-05", 2, some 3⟩ (by decide)

/-- C10: the actual gate of `POST /resources/upload`.  With the required
fields present, the endpoint returns 402 and leaves the state unchanged
exactly when the teacher already owns at least five resources (a
lifetime count over `resources`, with no month filter) and has no
subscription row that is `active` and unexpired; otherwise it returns
201 and appends the resource.  The `user_upload_counts` ledger is never
written, and the response is independent of its contents. -/
theorem c10_upload_endpoint_gate (now : Nat) (req : UploadReq) (s : DBState)
    (tid : Nat) (ht : req.teacher_id = some tid)
    (h1 : jsStrFalsy req.title = false)
    (h2 : jsStrFalsy req.subject = false)
    (h3 : jsStrFalsy req.grade = false) :
    ((resources_upload now req s).1 = .paymentRequired ↔
      5 ≤ lifetimeCount tid s.resources ∧
        hasActivePlan now tid s.subscriptionPlans = false) ∧
    ((resources_upload now req s).1 = .paymentRequired →
      (resources_upload now req s).2 = s) ∧
    (¬(5 ≤ lifetimeCount tid s.resources ∧
        hasActivePlan now tid s.subscriptionPlans = false) →
      (resources_upload now req s).1 = .created (mkResource tid req) ∧
      (resources_upload now req s).2 =
        { s with resources := s.resources ++ [mkResource tid req] }) ∧
    (resources_upload now req s).2.uploadCounts = s.uploadCounts ∧
    (∀ uc, (resources_upload now req { s with uploadCounts := uc }).1 =
      (resources_upload now req s).1) := by
  have hres : ∀ s₁ : DBState, resources_upload now req s₁ =
      if 5 ≤ lifetimeCount tid s₁.resources ∧
          hasActivePlan now tid s₁.subscriptionPlans = false then
        (.paymentRequired, s₁)
      else (.created (mkResource tid req),
        { s₁ with resources := s₁.resources ++ [mkResource tid req] }) := by
    intro s₁
    unfold resources_upload
    rw [ht]
    simp [h1, h2, h3]
  refine ⟨?_, ?_, ?_, ?_, ?_⟩
  · rw [hres]
    by_cases hcond : 5 ≤ lifetimeCount tid s.resources ∧
        hasActivePlan now tid s.subscriptionPlans = false
    · simp [hcond]
    · simp [hcond]
  · intro hpay
    rw [hres] at hpay ⊢
    by_cases hcond : 5 ≤ lifetimeCount tid s.resources ∧
        hasActivePlan now tid s.subscriptionPlans = false
    · simp [hcond]
    · simp [hcond] at hpay
  · intro hncond
    rw [hres]
    simp [hncond]
  · rw [hres]
    by_cases hcond : 5 ≤ lifetimeCount tid s.resources ∧
        hasActivePlan now tid s.subscriptionPlans = false
    · simp [hcond]
    · simp [hcond]
  · intro uc
    rw [hres, hres]
    by_cases hcond : 5 ≤ lifetimeCount tid s.resources ∧
        hasActivePlan now tid s.subscriptionPlans = false
    · simp [hcond]
    · simp [hcond]

/-- C10 witness: a fresh teacher (zero lifetime resources) gets 201 and
the resource is appended. -/
theorem c10_upload_endpoint_gate_witness :
    (resources_upload 0 reqEx freshFreeState).1 = .created (mkResource 1 reqEx) ∧
    (resources_upload 0 reqEx freshFreeState).2 =
      { freshFreeState with
          resources := freshFreeState.resources ++ [mkResource 1 reqEx] } :=
  (c10_upload_endpoint_gate 0 reqEx freshFreeState 1 rfl (by decide) (by decide)
    (by decide)).2.2.1 (by decide)

end TransLearn
